import Mathlib

/-!
Verification development for the stats-agent code-execution service.

The embedding models, from the source:
* `src/docker/executor.py` — the session server: session registry (`sessions`
  dict), per-session workspace directory, SIGALRM wall-clock timeout,
  stdout redirection, exception classification, and the connection
  handler / wire protocol of `main`.
* `src/python/executor.py` — the earlier executor variant without timeout
  or chdir, with the extra eval-of-last-line step.
* the sandbox preamble of `src/devstral-tune/generate_traces.py` — the
  monkey-patched deny-list of process/subprocess and network entry points.

Submitted code is modelled by a small statement language whose execution
mirrors Python `exec` at the granularity the service observes: name
binding in the session mapping, writes to `sys.stdout` / `sys.stderr`,
raised exceptions (with the `Exception` vs `BaseException`-only
distinction that `except Exception` relies on), wall-clock consumption,
file writes relative to the current working directory, and calls to
process-spawning / socket-creating library entry points.
-/

namespace StatsAgent

/-- A Python exception as the executor observes it: class name, message,
whether it is in the `Exception` hierarchy (so that `except Exception`
catches it — `SystemExit`, `KeyboardInterrupt` are not), and whether it is
the executor's own `TimeoutException` raised by the SIGALRM handler
(user-raised exceptions are distinct classes even under the same name). -/
structure PyExn where
  kind : String
  msg : String
  catchable : Bool
  fromAlarm : Bool
deriving Repr, DecidableEq

/-- Values of the modelled fragment: integers and Python `None`. -/
inductive Value where
  | vInt (n : Int)
  | vNone
deriving Repr, DecidableEq

deriving instance DecidableEq for Except

/-- `str(v)` for a modelled value. -/
def Value.pyStr : Value → String
  | .vInt n => toString n
  | .vNone => "None"

/-- The execution-state mapping of one session (`exec` globals): an
insertion-ordered dictionary from names to values. -/
abbrev Env := List (String × Value)

/-- Dictionary read: first binding of the key, if any. -/
def assocGet {β : Type} : List (String × β) → String → Option β
  | [], _ => none
  | (k, v) :: rest, x => if k = x then some v else assocGet rest x

/-- Dictionary write `d[x] = v`: update in place, append if absent. -/
def assocSet {β : Type} : List (String × β) → String → β → List (String × β)
  | [], x, v => [(x, v)]
  | (k, w) :: rest, x, v =>
      if k = x then (x, v) :: rest else (k, w) :: assocSet rest x v

/-- Expressions of the modelled fragment. -/
inductive Expr where
  | const (v : Value)
  | var (x : String)
deriving Repr, DecidableEq

/-- `NameError` raised on an unbound name. -/
def nameError (x : String) : PyExn :=
  ⟨"NameError", "name " ++ x ++ " is not defined", true, false⟩

/-- Expression evaluation against an environment. -/
def Expr.eval (env : Env) : Expr → Except PyExn Value
  | .const v => .ok v
  | .var x =>
      match assocGet env x with
      | some v => .ok v
      | none => .error (nameError x)

/-- Statements of the modelled fragment.  `procCall` / `netCall` name the
library entry point called (e.g. `os.system`, `socket.socket`), so that the
sandbox preamble's deny-list can be applied by name exactly as the source
patches it. -/
inductive Stmt where
  | assign (x : String) (e : Expr)
  | printE (e : Expr)
  | printErr (e : Expr)
  | exprStmt (e : Expr)
  | raiseStmt (kind msg : String) (catchable : Bool)
  | sleep (n : Nat)
  | procCall (fn : String)
  | netCall (fn : String)
  | fileWrite (name content : String)
deriving Repr, DecidableEq

/-- The process/subprocess entry points monkey-patched to `_blocked` by the
sandbox preamble of `generate_traces.py` (exactly the names assigned there). -/
def blocked_process_fns : List String :=
  ["os.system", "os.popen", "os.spawn", "os.spawnl", "os.spawnle",
   "os.spawnlp", "os.spawnlpe", "os.spawnv", "os.spawnve", "os.spawnvp",
   "os.spawnvpe", "subprocess.run", "subprocess.Popen", "subprocess.call",
   "subprocess.check_call", "subprocess.check_output",
   "subprocess.getoutput", "subprocess.getstatusoutput"]

/-- The socket entry points monkey-patched to `_no_network` by the sandbox
preamble (exactly the names assigned there). -/
def blocked_network_fns : List String :=
  ["socket.socket", "socket.create_connection", "socket.getaddrinfo",
   "socket.gethostbyname", "socket.gethostbyaddr"]

/-- Message of `_blocked` in the sandbox preamble. -/
def blockedMsg : String := "system/subprocess operations disabled for security"

/-- Message of `_no_network` in the sandbox preamble. -/
def noNetworkMsg : String := "network operations disabled for security"

/-- The `RuntimeError` raised by `_blocked`. -/
def blockedExn : PyExn := ⟨"RuntimeError", blockedMsg, true, false⟩

/-- The `RuntimeError` raised by `_no_network`. -/
def noNetworkExn : PyExn := ⟨"RuntimeError", noNetworkMsg, true, false⟩

/-- The executor's `TimeoutException("Execution timed out")` raised by the
SIGALRM handler. -/
def alarmExn : PyExn := ⟨"TimeoutException", "Execution timed out", true, true⟩

/-- State threaded through one `exec` call: the session mapping being
mutated in place, the bytes the code wrote to `sys.stdout` and to
`sys.stderr`, wall-clock seconds consumed, the file system's files, and the
record of process spawns / socket creations that actually happened. -/
structure ExecSt where
  env : Env
  out : String
  err : String
  clock : Nat
  files : List (String × String)
  spawned : List String
  sockets : Nat
deriving Repr, DecidableEq

/-- One statement of the modelled `exec`.  `sandbox` tells whether the
sandbox preamble's monkey-patches are in effect; `timeout` is the pending
SIGALRM deadline in seconds (`0` means no alarm was set, as `signal.alarm(0)`
cancels); `cwd` is the current working directory, against which relative
file writes resolve. -/
def execStmt (sandbox : Bool) (timeout : Nat) (cwd : String) (s : Stmt)
    (st : ExecSt) : ExecSt × Option PyExn :=
  match s with
  | .assign x e =>
      match Expr.eval st.env e with
      | .ok v => ({ st with env := assocSet st.env x v }, none)
      | .error ex => (st, some ex)
  | .printE e =>
      match Expr.eval st.env e with
      | .ok v => ({ st with out := st.out ++ v.pyStr ++ "\n" }, none)
      | .error ex => (st, some ex)
  | .printErr e =>
      match Expr.eval st.env e with
      | .ok v => ({ st with err := st.err ++ v.pyStr ++ "\n" }, none)
      | .error ex => (st, some ex)
  | .exprStmt e =>
      match Expr.eval st.env e with
      | .ok _ => (st, none)
      | .error ex => (st, some ex)
  | .raiseStmt k m c => (st, some ⟨k, m, c, false⟩)
  | .sleep n =>
      if 0 < timeout ∧ timeout ≤ st.clock + n then
        ({ st with clock := timeout }, some alarmExn)
      else
        ({ st with clock := st.clock + n }, none)
  | .procCall fn =>
      if sandbox ∧ fn ∈ blocked_process_fns then (st, some blockedExn)
      else ({ st with spawned := st.spawned ++ [fn] }, none)
  | .netCall fn =>
      if sandbox ∧ fn ∈ blocked_network_fns then (st, some noNetworkExn)
      else ({ st with sockets := st.sockets + 1 }, none)
  | .fileWrite name content =>
      ({ st with files := st.files ++ [(cwd ++ "/" ++ name, content)] }, none)

/-- Run a statement list until the first raised exception; the state at the
raise point is kept (in-place mutations made before the fault persist). -/
def execStmts (sandbox : Bool) (timeout : Nat) (cwd : String) :
    List Stmt → ExecSt → ExecSt × Option PyExn
  | [], st => (st, none)
  | s :: rest, st =>
      match execStmt sandbox timeout cwd s st with
      | (st2, some ex) => (st2, some ex)
      | (st2, none) => execStmts sandbox timeout cwd rest st2

/-- Where a `sys.stdout` / `sys.stderr` reference currently points: the
server process's own stream, or the per-call `io.StringIO` buffer. -/
inductive StreamTarget where
  | server
  | callBuffer
deriving Repr, DecidableEq

/-- State of the docker executor server process (`src/docker/executor.py`):
the module-global `sessions` dict, the process working directory, the
file system (existing directories and files), the current targets of
`sys.stdout` / `sys.stderr`, and the bytes that have reached the server
process's own stdout / stderr streams. -/
structure ServerState where
  sessions : List (String × Env)
  cwd : String
  dirs : List String
  files : List (String × String)
  sysStdout : StreamTarget
  sysStderr : StreamTarget
  serverOut : String
  serverErr : String
deriving Repr, DecidableEq

/-- Whether a path is absolute (starts with a slash). -/
def isAbs (s : String) : Bool :=
  match s.data with
  | [] => false
  | c :: _ => c = '/'

/-- `os.path.join(root, p)`: an absolute second component discards the root. -/
def osPathJoin (root p : String) : String :=
  if isAbs p then p else root ++ "/" ++ p

/-- `os.path.join("/app/workspaces", session_id)` as computed in
`execute_code`. -/
def workspacePath (session_id : String) : String :=
  osPathJoin "/app/workspaces" session_id

/-- `if session_id not in sessions: sessions[session_id] = {}` — the
session-registry get-or-create step. -/
def getOrCreate (sessions : List (String × Env)) (session_id : String) :
    List (String × Env) :=
  match assocGet sessions session_id with
  | some _ => sessions
  | none => sessions ++ [(session_id, [])]

/-- The execution-state mapping stored for a session (empty if absent). -/
def sessionEnv (sessions : List (String × Env)) (session_id : String) : Env :=
  (assocGet sessions session_id).getD []

/-- `FileNotFoundError` raised by `os.chdir` on a missing directory. -/
def fileNotFound (p : String) : PyExn :=
  ⟨"FileNotFoundError", "No such file or directory: " ++ p, true, false⟩

/-- The initial `ExecSt` of one call: the session's stored mapping, a fresh
empty `StringIO` for captured stdout, nothing yet on stderr, the alarm clock
at zero, the current files, and no spawns or sockets. -/
def initExecSt (env : Env) (files : List (String × String)) : ExecSt :=
  ⟨env, "", "", 0, files, [], 0⟩

/-- `execute_code(session_id, code, timeout_seconds)` of
`src/docker/executor.py`.  Returns the new server state and either the
result string handed back to `main` (`Except.ok`) or an exception that
propagates out of `execute_code` (`Except.error`) — which happens when
`os.chdir` fails (it runs before the `try` block) or when the raised
exception is outside the `Exception` hierarchy, since the handlers are
`except TimeoutException` / `except Exception`.  The `finally` block
(cancel alarm, restore `sys.stdout`, restore the working directory) runs on
every path through the `try`.  No sandbox preamble is applied by this
executor. -/
def execute_code (st : ServerState) (session_id : String) (code : List Stmt)
    (timeout_seconds : Nat) : ServerState × Except PyExn String :=
  let sessions1 := getOrCreate st.sessions session_id
  let session_state := sessionEnv sessions1 session_id
  let workspace_dir := workspacePath session_id
  let original_dir := st.cwd
  if st.dirs.contains workspace_dir then
    -- os.chdir(workspace_dir) succeeded; alarm set; sys.stdout redirected
    let old_stdout := st.sysStdout
    let es0 := initExecSt session_state st.files
    let res := execStmts false timeout_seconds workspace_dir code es0
    let es1 := res.1
    -- stdout writes went to the per-call buffer; stderr writes went to
    -- whatever sys.stderr pointed at (never changed by this executor)
    let serverErr1 :=
      match st.sysStderr with
      | .server => st.serverErr ++ es1.err
      | .callBuffer => st.serverErr
    let st2 : ServerState :=
      { st with
        sessions := assocSet sessions1 session_id es1.env
        files := es1.files
        serverErr := serverErr1
        cwd := original_dir
        sysStdout := old_stdout }
    match res.2 with
    | none => (st2, .ok es1.out)
    | some e =>
        if e.fromAlarm then (st2, .ok ("Error: " ++ e.msg))
        else if e.catchable then
          (st2, .ok ("Error: " ++ e.kind ++ ": " ++ e.msg))
        else (st2, .error e)
  else
    -- os.chdir raised before the try block: the new session entry already
    -- exists, nothing was redirected, the exception propagates
    ({ st with sessions := sessions1 }, .error (fileNotFound workspace_dir))

/-- `SyntaxError` as raised by `eval` on text that is not an expression. -/
def syntaxErrorExn : PyExn := ⟨"SyntaxError", "invalid syntax", true, false⟩

/-- `eval(last_line, session_state)` of `src/python/executor.py`, applied to
the last statement of the stripped code (empty code gives `eval("")`, a
`SyntaxError`).  A bare expression evaluates to its value; a `print(...)`
or library call is itself a call expression evaluating to its return value
(`None` here; the re-printed text goes to the already-read buffer and is
lost); an assignment or `raise` is a statement, not an expression, so
`eval` raises `SyntaxError`. -/
def pyEvalLast (code : List Stmt) (env : Env) : Except PyExn Value :=
  match code.getLast? with
  | none => .error syntaxErrorExn
  | some s =>
      match s with
      | .exprStmt e => Expr.eval env e
      | .printE e =>
          match Expr.eval env e with
          | .ok _ => .ok .vNone
          | .error ex => .error ex
      | .printErr e =>
          match Expr.eval env e with
          | .ok _ => .ok .vNone
          | .error ex => .error ex
      | .sleep _ => .ok .vNone
      | .procCall _ => .ok .vNone
      | .netCall _ => .ok .vNone
      | .fileWrite _ _ => .ok .vNone
      | .assign _ _ => .error syntaxErrorExn
      | .raiseStmt _ _ _ => .error syntaxErrorExn

/-- `execute_code(session_id, code)` of `src/python/executor.py`: no
timeout, no workspace chdir, no sandbox.  After a successful `exec` it
additionally `eval`s the last line against the session state; a non-`None`
value's `str` is appended to the captured output, and any exception from
that extra step is swallowed by the bare `except:`.  Exceptions from `exec`
itself outside the `Exception` hierarchy propagate (`Except.error`). -/
def py_execute_code (sessions : List (String × Env)) (session_id : String)
    (code : List Stmt) : List (String × Env) × Except PyExn String :=
  let sessions1 := getOrCreate sessions session_id
  let session_state := sessionEnv sessions1 session_id
  let res := execStmts false 0 "" code (initExecSt session_state [])
  let es1 := res.1
  let sessions2 := assocSet sessions1 session_id es1.env
  match res.2 with
  | none =>
      let output := es1.out
      let output2 :=
        match pyEvalLast code es1.env with
        | .ok v => if v = .vNone then output else output ++ v.pyStr
        | .error _ => output
      (sessions2, .ok output2)
  | some e =>
      if e.catchable then
        (sessions2, .ok ("Error: " ++ e.kind ++ ": " ++ e.msg))
      else (sessions2, .error e)

/-! Wire protocol.  Character-level operations mirror the Python string
operations of `main`: `EOM_TOKEN in full_message`, `replace(EOM_TOKEN, "")`
(all occurrences, left to right), `split('|', 1)`, `strip()`. -/

/-- `EOM_TOKEN = "<|EOM|>"` as a character list. -/
def eomChars : List Char := ['<', '|', 'E', 'O', 'M', '|', '>']

/-- `EOM_TOKEN` as a string. -/
def eomS : String := String.mk eomChars

/-- Whether `pat` is an initial segment of `s` (decidable, structural). -/
def leadsWith : List Char → List Char → Bool
  | [], _ => true
  | _ :: _, [] => false
  | a :: as, b :: bs => a = b && leadsWith as bs

/-- The remainder of `s` after an initial segment `pat`, if it leads. -/
def afterLead : List Char → List Char → Option (List Char)
  | [], s => some s
  | _ :: _, [] => none
  | a :: as, b :: bs => if a = b then afterLead as bs else none

/-- Whether `pat` occurs anywhere in `s` (Python `pat in s`). -/
def hasSub (pat : List Char) : List Char → Bool
  | [] => leadsWith pat []
  | c :: rest => leadsWith pat (c :: rest) || hasSub pat rest

/-- Left-to-right removal of every non-overlapping occurrence of `pat`
(Python `s.replace(pat, "")`), fuelled by the length of `s` so the
recursion is structural. -/
def stripAllFuel (pat : List Char) : Nat → List Char → List Char
  | _, [] => []
  | 0, s => s
  | n + 1, c :: rest =>
      match afterLead pat (c :: rest) with
      | some rem => stripAllFuel pat n rem
      | none => c :: stripAllFuel pat n rest

/-- `s.replace(pat, "")`. -/
def stripAll (pat s : List Char) : List Char :=
  stripAllFuel pat s.length s

/-- `full_message.replace(EOM_TOKEN, "")` on strings. -/
def stripTok (s : String) : String := String.mk (stripAll eomChars s.data)

/-- Split at the first occurrence of `sep`, if any. -/
def splitFirst (sep : Char) : List Char → Option (List Char × List Char)
  | [] => none
  | c :: rest =>
      if c = sep then some ([], rest)
      else
        match splitFirst sep rest with
        | some (a, b) => some (c :: a, b)
        | none => none

/-- `message.split('|', 1)`: two parts when a delimiter occurs, else one. -/
def splitBar1 (s : String) : List String :=
  match splitFirst '|' s.data with
  | some (a, b) => [String.mk a, String.mk b]
  | none => [s]

/-- `s.strip()`. -/
def pyStrip (s : String) : String :=
  String.mk (((s.data.dropWhile Char.isWhitespace).reverse.dropWhile
    Char.isWhitespace).reverse)

/-- Split a character list at every occurrence of `sep`
(Python `s.split(sep)`). -/
def splitOnChar (sep : Char) : List Char → List (List Char)
  | [] => [[]]
  | c :: rest =>
      match splitOnChar sep rest with
      | l :: ls => if c = sep then [] :: l :: ls else (c :: l) :: ls
      | [] => [[c]]

/-! A concrete surface syntax for the modelled fragment, standing for the
Python source text carried on the wire.  `exec` compiles the whole source
before running any of it, so a parse failure anywhere yields a program that
raises `SyntaxError` immediately. -/

/-- Identifier: a letter followed by letters and digits. -/
def isIdentChars (t : List Char) : Bool :=
  match t with
  | [] => false
  | c :: _ => c.isAlpha && t.all Char.isAlphanum

/-- Natural-number literal value of a digit list. -/
def natFromDigits (t : List Char) : Nat :=
  t.foldl (fun acc c => 10 * acc + (c.toNat - 48)) 0

/-- Parse an expression: `None`, an integer literal, or a variable. -/
def parseExpr (t : List Char) : Option Expr :=
  if t = ['N', 'o', 'n', 'e'] then some (.const .vNone)
  else if t ≠ [] && t.all Char.isDigit then
    some (.const (.vInt (Int.ofNat (natFromDigits t))))
  else if isIdentChars t then some (.var (String.mk t))
  else none

/-- Parse one nonblank line: `print(e)`, `x=e`, or a bare expression. -/
def parseLine (t : List Char) : Option Stmt :=
  if leadsWith ['p', 'r', 'i', 'n', 't', '('] t && t.getLast? = some ')' then
    match parseExpr (t.drop 6).dropLast with
    | some e => some (.printE e)
    | none => none
  else
    match splitFirst '=' t with
    | some (lhs, rhs) =>
        if isIdentChars lhs then
          match parseExpr rhs with
          | some e => some (.assign (String.mk lhs) e)
          | none => none
        else none
    | none =>
        match parseExpr t with
        | some e => some (.exprStmt e)
        | none => none

/-- Compile source text to a program: split the stripped text into lines,
drop blank lines, parse each; any failure makes the whole program raise
`SyntaxError` (as compiling the source does, before any line runs). -/
def parseCode (code : String) : List Stmt :=
  let lines := (splitOnChar '\n' (pyStrip code).data).filter (fun l => l ≠ [])
  let parsed := lines.map parseLine
  if parsed.all Option.isSome then parsed.filterMap id
  else [.raiseStmt "SyntaxError" "invalid syntax" true]

/-- The protocol error sent (without sentinel) on a missing delimiter. -/
def invalidFormatMsg : String :=
  "Error: Invalid message format. Expected \x27session_id|code\x27."

/-- The substitute sent when the result text is whitespace-only. -/
def emptySuccessMsg : String := "Success: Code executed with no output."

/-- The per-connection receive loop of `main` in `src/docker/executor.py`.
`buf` is `full_message` (never cleared after processing); each list element
is one `conn.recv` chunk, and the list ending is the peer closing the
connection.  Returns the server state and the responses written back, in
order.  A result that `execute_code` lets propagate crashes the handler
(modelled by stopping with no further responses). -/
def handleLoop (timeout : Nat) (st : ServerState) (buf : String) :
    List String → ServerState × List String
  | [] => (st, [])
  | data :: rest =>
      if hasSub eomChars (buf ++ data).data then
        match splitBar1 (stripTok (buf ++ data)) with
        | [session_id, code] =>
            match execute_code st session_id (parseCode code) timeout with
            | (st2, .ok result) =>
                ((handleLoop timeout st2 (buf ++ data) rest).1,
                 ((if pyStrip result = "" then emptySuccessMsg else result) ++
                    eomS) :: (handleLoop timeout st2 (buf ++ data) rest).2)
            | (st2, .error _) => (st2, [])
        | _ =>
            ((handleLoop timeout st (buf ++ data) rest).1,
             invalidFormatMsg :: (handleLoop timeout st (buf ++ data) rest).2)
      else
        handleLoop timeout st (buf ++ data) rest

/-- One accepted connection, starting from an empty `full_message`. -/
def handleConn (timeout : Nat) (st : ServerState) (chunks : List String) :
    ServerState × List String :=
  handleLoop timeout st "" chunks

/-! Dictionary lemmas. -/

theorem assocGet_assocSet_self {β : Type} (l : List (String × β)) (k : String)
    (v : β) : assocGet (assocSet l k v) k = some v := by
  induction l with
  | nil => simp [assocSet, assocGet]
  | cons p rest ih =>
      obtain ⟨a, b⟩ := p
      by_cases h : a = k
      · simp [assocSet, h, assocGet]
      · simp [assocSet, h, assocGet, ih]

theorem assocGet_assocSet_ne {β : Type} (l : List (String × β)) (k k2 : String)
    (v : β) (h : k2 ≠ k) : assocGet (assocSet l k v) k2 = assocGet l k2 := by
  induction l with
  | nil => simp [assocSet, assocGet, Ne.symm h]
  | cons p rest ih =>
      obtain ⟨a, b⟩ := p
      by_cases ha : a = k
      · subst ha
        simp [assocSet, assocGet, Ne.symm h]
      · simp [assocSet, ha, assocGet, ih]

theorem assocGet_append {β : Type} (l1 l2 : List (String × β)) (x : String) :
    assocGet (l1 ++ l2) x =
      match assocGet l1 x with
      | some v => some v
      | none => assocGet l2 x := by
  induction l1 with
  | nil => simp [assocGet]
  | cons p rest ih =>
      obtain ⟨a, b⟩ := p
      by_cases h : a = x
      · simp [assocGet, h]
      · simp [assocGet, h, ih]

theorem sessionEnv_getOrCreate (l : List (String × Env)) (k : String) :
    sessionEnv (getOrCreate l k) k = sessionEnv l k := by
  unfold sessionEnv getOrCreate
  cases hc : assocGet l k with
  | some e => simp [hc]
  | none => simp [hc, assocGet_append, assocGet]

theorem assocGet_getOrCreate_self (l : List (String × Env)) (k : String) :
    assocGet (getOrCreate l k) k = some (sessionEnv l k) := by
  unfold sessionEnv getOrCreate
  cases hc : assocGet l k with
  | some e => simp [hc]
  | none => simp [hc, assocGet_append, assocGet]

theorem assocGet_getOrCreate_ne (l : List (String × Env)) (k k2 : String)
    (h : k2 ≠ k) : assocGet (getOrCreate l k) k2 = assocGet l k2 := by
  unfold getOrCreate
  cases hc : assocGet l k with
  | some e => simp
  | none =>
      cases hc2 : assocGet l k2 with
      | some e2 => simp [assocGet_append, hc2]
      | none => simp [assocGet_append, hc2, assocGet, Ne.symm h]

/-- A concrete server state used to instantiate hypothesis-bearing
theorems: fresh registry, server streams in place, a few existing
workspace directories. -/
def demoState : ServerState :=
  ⟨[], "/app", ["/app/workspaces/A", "/app/workspaces/B", "/app/workspaces/s"],
   [], .server, .server, "", ""⟩

/-- Claim C1: a submission for a session runs against exactly the
execution-state mapping stored for that session (so a second submission
with the same identifier sees the mutations of the first — the stored
mapping after the call is the one `exec` mutated starting from the stored
mapping before it), and the stored mapping of every other session
identifier is left untouched. -/
theorem c1_session_isolation_and_persistence (st : ServerState)
    (id id2 : String) (code : List Stmt) (t : Nat) (h : id2 ≠ id) :
    assocGet (execute_code st id code t).1.sessions id2 =
      assocGet st.sessions id2
    ∧ assocGet (execute_code st id code t).1.sessions id =
      some (if st.dirs.contains (workspacePath id) then
              (execStmts false t (workspacePath id) code
                (initExecSt (sessionEnv st.sessions id) st.files)).1.env
            else sessionEnv st.sessions id) := by
  unfold execute_code
  by_cases hdir : st.dirs.contains (workspacePath id)
  · simp only [hdir, if_true]
    rw [sessionEnv_getOrCreate]
    constructor
    · cases hres : (execStmts false t (workspacePath id) code
        (initExecSt (sessionEnv st.sessions id) st.files)).2 with
      | none =>
          simp only [hres]
          rw [assocGet_assocSet_ne _ _ _ _ h, assocGet_getOrCreate_ne _ _ _ h]
      | some e =>
          simp only [hres]
          by_cases hfa : e.fromAlarm <;> by_cases hca : e.catchable <;>
            simp only [hfa, hca, if_true, if_false, Bool.false_eq_true] <;>
            rw [assocGet_assocSet_ne _ _ _ _ h,
              assocGet_getOrCreate_ne _ _ _ h]
    · cases hres : (execStmts false t (workspacePath id) code
        (initExecSt (sessionEnv st.sessions id) st.files)).2 with
      | none =>
          simp only [hres]
          rw [assocGet_assocSet_self]
      | some e =>
          simp only [hres]
          by_cases hfa : e.fromAlarm <;> by_cases hca : e.catchable <;>
            simp only [hfa, hca, if_true, if_false, Bool.false_eq_true] <;>
            rw [assocGet_assocSet_self]
  · simp only [hdir, if_false, Bool.false_eq_true]
    exact ⟨assocGet_getOrCreate_ne _ _ _ h, assocGet_getOrCreate_self _ _⟩

/-- Witness for C1 at a concrete input: sessions `A` and `B` are distinct,
`B`'s mapping is untouched by a run under `A`, and `A`'s mapping after the
run is the one the code mutated. -/
theorem c1_witness :
    ("B" : String) ≠ "A"
    ∧ (assocGet (execute_code demoState "A"
          [Stmt.assign "x" (Expr.const (Value.vInt 1))] 60).1.sessions "B" =
        assocGet demoState.sessions "B"
      ∧ assocGet (execute_code demoState "A"
          [Stmt.assign "x" (Expr.const (Value.vInt 1))] 60).1.sessions "A" =
        some (if demoState.dirs.contains (workspacePath "A") then
                (execStmts false 60 (workspacePath "A")
                  [Stmt.assign "x" (Expr.const (Value.vInt 1))]
                  (initExecSt (sessionEnv demoState.sessions "A")
                    demoState.files)).1.env
              else sessionEnv demoState.sessions "A")) :=
  ⟨by decide,
   c1_session_isolation_and_persistence demoState "A" "B"
     [Stmt.assign "x" (Expr.const (Value.vInt 1))] 60 (by decide)⟩

/-- Claim C2 counterexample: a submission that raises `SystemExit` (for
example `sys.exit(1)`) raises an exception during execution, yet
`execute_code` does not return an `"Error:"` result string: the exception
is outside the `Exception` hierarchy, so neither `except TimeoutException`
nor `except Exception` catches it and it propagates out of the executor to
the connection handler. -/
theorem c2_counterexample :
    (execute_code demoState "s" [Stmt.raiseStmt "SystemExit" "" false] 60).2 =
      Except.error ⟨"SystemExit", "", false, false⟩ := rfl

/-- Claim C2 amended: for every submission whose code raises an exception
in the `Exception` hierarchy (and not the executor's own alarm
`TimeoutException`), run in an existing workspace directory, the executor
catches it and returns exactly `"Error: <Kind>: <detail>"` without
propagating; exceptions outside the `Exception` hierarchy (`SystemExit`,
`KeyboardInterrupt`) escape `except Exception` and propagate to the
connection handler. -/
theorem c2_exception_classified (st : ServerState) (id : String)
    (code : List Stmt) (t : Nat) (e : PyExn)
    (hdir : st.dirs.contains (workspacePath id) = true)
    (hrun : (execStmts false t (workspacePath id) code
      (initExecSt (sessionEnv st.sessions id) st.files)).2 = some e)
    (hc : e.catchable = true) (ha : e.fromAlarm = false) :
    (execute_code st id code t).2 =
      Except.ok ("Error: " ++ e.kind ++ ": " ++ e.msg) := by
  unfold execute_code
  simp only [hdir, if_true]
  rw [sessionEnv_getOrCreate]
  simp only [hrun, ha, hc, Bool.false_eq_true, if_false, if_true]

/-- Witness for C2 at a concrete input: a `ValueError` raised by the code
comes back as the classified error string. -/
theorem c2_witness :
    demoState.dirs.contains (workspacePath "s") = true
    ∧ (execute_code demoState "s" [Stmt.raiseStmt "ValueError" "bad input" true]
        60).2 = Except.ok ("Error: " ++ "ValueError" ++ ": " ++ "bad input") :=
  ⟨by decide,
   c2_exception_classified demoState "s"
     [Stmt.raiseStmt "ValueError" "bad input" true] 60
     ⟨"ValueError", "bad input", true, false⟩ (by decide) rfl rfl rfl⟩

/-- Claim C3: whenever the wall-clock alarm fires during execution (the
SIGALRM handler's `TimeoutException` aborts the attempt — statements after
the firing point never run), the caller receives exactly
`"Error: Execution timed out"`; in particular any submission that starts by
running at least `timeout` seconds is cut off with that result no matter
what follows. -/
theorem c3_timeout_classified :
    (∀ (st : ServerState) (id : String) (code : List Stmt) (t : Nat),
      st.dirs.contains (workspacePath id) = true →
      (execStmts false t (workspacePath id) code
        (initExecSt (sessionEnv st.sessions id) st.files)).2 = some alarmExn →
      (execute_code st id code t).2 = Except.ok "Error: Execution timed out")
    ∧ (∀ (st : ServerState) (id : String) (t n : Nat) (rest : List Stmt),
      st.dirs.contains (workspacePath id) = true → 0 < t → t ≤ n →
      (execute_code st id (Stmt.sleep n :: rest) t).2 =
        Except.ok "Error: Execution timed out") := by
  have base :
      ∀ (st : ServerState) (id : String) (code : List Stmt) (t : Nat),
        st.dirs.contains (workspacePath id) = true →
        (execStmts false t (workspacePath id) code
          (initExecSt (sessionEnv st.sessions id) st.files)).2 =
          some alarmExn →
        (execute_code st id code t).2 =
          Except.ok "Error: Execution timed out" := by
    intro st id code t hdir hrun
    unfold execute_code
    simp only [hdir, if_true]
    rw [sessionEnv_getOrCreate]
    simp only [hrun, alarmExn, if_true]
    rfl
  refine ⟨base, ?_⟩
  intro st id t n rest hdir ht hn
  apply base st id _ t hdir
  simp only [execStmts, execStmt, initExecSt]
  rw [if_pos]
  exact ⟨ht, by omega⟩

/-- Witness for C3 at a concrete input: a submission sleeping 60 seconds
under a 60-second timeout returns the timeout-classified string. -/
theorem c3_witness :
    demoState.dirs.contains (workspacePath "s") = true
    ∧ (0 : Nat) < 60 ∧ (60 : Nat) ≤ 60
    ∧ (execute_code demoState "s" [Stmt.sleep 60] 60).2 =
        Except.ok "Error: Execution timed out" :=
  ⟨by decide, by decide, by decide,
   c3_timeout_classified.2 demoState "s" 60 60 [] (by decide) (by decide)
     (by decide)⟩

/-- Claim C4 counterexample: `os.posix_spawn` spawns a process but is not
among the entry points the sandbox preamble monkey-patches (it patches
`os.system`, `os.popen`, the `os.spawn*` family, seven `subprocess`
functions and five `socket` functions), so with the sandbox in effect the
call raises nothing and the process is actually spawned — a submission
attempting to spawn a process that does not fail. -/
theorem c4_counterexample :
    execStmts true 60 "/w" [Stmt.procCall "os.posix_spawn"]
      (initExecSt [] []) =
      (⟨[], "", "", 0, [], ["os.posix_spawn"], 0⟩, none) := rfl

/-- Claim C4 amended: with the sandbox preamble in effect, a call to any of
the deny-listed process/subprocess entry points raises the
`RuntimeError("system/subprocess operations disabled for security")` of
`_blocked` with no process spawned, a call to any deny-listed socket entry
point raises the `RuntimeError("network operations disabled for security")`
of `_no_network` with no socket created, and local file I/O in the working
directory still succeeds; entry points outside the deny-list (e.g.
`os.posix_spawn`, `os.fork`) are not blocked. -/
theorem c4_denylist_blocks (fn g nm content : String) (t : Nat) (cwd : String)
    (st : ExecSt) (hf : fn ∈ blocked_process_fns)
    (hg : g ∈ blocked_network_fns) :
    execStmts true t cwd [Stmt.procCall fn] st = (st, some blockedExn)
    ∧ execStmts true t cwd [Stmt.netCall g] st = (st, some noNetworkExn)
    ∧ execStmts true t cwd [Stmt.fileWrite nm content] st =
        ({ st with files := st.files ++ [(cwd ++ "/" ++ nm, content)] },
         none) := by
  refine ⟨?_, ?_, ?_⟩
  · simp [execStmts, execStmt, hf]
  · simp [execStmts, execStmt, hg]
  · simp only [execStmts, execStmt]

/-- Witness for C4 at concrete inputs: `os.system` and `socket.socket` are
deny-listed and blocked; a plot file write succeeds. -/
theorem c4_witness :
    ("os.system" ∈ blocked_process_fns)
    ∧ ("socket.socket" ∈ blocked_network_fns)
    ∧ (execStmts true 60 "/app/workspaces/s" [Stmt.procCall "os.system"]
        (initExecSt [] []) = (initExecSt [] [], some blockedExn)
      ∧ execStmts true 60 "/app/workspaces/s" [Stmt.netCall "socket.socket"]
        (initExecSt [] []) = (initExecSt [] [], some noNetworkExn)
      ∧ execStmts true 60 "/app/workspaces/s"
        [Stmt.fileWrite "plot.png" "data"] (initExecSt [] []) =
        ({ initExecSt [] [] with
            files := (initExecSt [] []).files ++
              [("/app/workspaces/s" ++ "/" ++ "plot.png", "data")] }, none)) :=
  ⟨by decide, by decide,
   c4_denylist_blocks "os.system" "socket.socket" "plot.png" "data" 60
     "/app/workspaces/s" (initExecSt [] []) (by decide) (by decide)⟩

/-- Modelled from the spec: the Workspace Manager operation
`ensure_dir(session_id) -> path` is not part of the executor source under
`src/` (the executor only joins the fixed root with the session identifier
and `chdir`s; the directory is created by the agent side of the
repository).  Per the spec it deterministically derives the directory path
from the session identifier under the fixed root and creates it if absent
(idempotently). -/
def ensure_dir (session_id : String) (dirs : List String) :
    String × List String :=
  (workspacePath session_id,
   if dirs.contains (workspacePath session_id) then dirs
   else dirs ++ [workspacePath session_id])

/-- `List.contains` holds for an element appended on the right. -/
theorem contains_append_singleton (l : List String) (x : String) :
    (l ++ [x]).contains x = true := by
  induction l with
  | nil => simp
  | cons a rest ih => simp

/-- `ensure_dir` leaves the directory present. -/
theorem ensure_dir_mem (session_id : String) (dirs : List String) :
    (ensure_dir session_id dirs).2.contains
      (workspacePath session_id) = true := by
  unfold ensure_dir
  by_cases h : dirs.contains (workspacePath session_id) = true
  · simp only [h, if_true]
  · simp only [h, if_false]
    exact contains_append_singleton _ _

/-- `ensure_dir` is the identity on the directory set when the directory
already exists. -/
theorem ensure_dir_already (session_id : String) (dirs : List String)
    (h : dirs.contains (workspacePath session_id) = true) :
    ensure_dir session_id dirs = (workspacePath session_id, dirs) := by
  unfold ensure_dir
  rw [if_pos h]

/-- Claim C5: `ensure_dir` derives the working-directory path
deterministically from the session identifier under the fixed root
`/app/workspaces`, creates the directory only if absent (so repeating it
changes nothing), and with the directory ensured, a request for a
never-before-seen session identifier succeeds and its code runs with that
directory as the current working directory (a relative file write lands
inside it). -/
theorem c5_workspace_ensure (st : ServerState) (id nm content : String)
    (t : Nat) (habs : isAbs id = false) :
    (ensure_dir id st.dirs).1 = "/app/workspaces/" ++ id
    ∧ ensure_dir id (ensure_dir id st.dirs).2 =
        ((ensure_dir id st.dirs).1, (ensure_dir id st.dirs).2)
    ∧ (ensure_dir id st.dirs).2.contains (workspacePath id) = true
    ∧ (execute_code { st with dirs := (ensure_dir id st.dirs).2 } id
        [Stmt.fileWrite nm content] t).2 = Except.ok ""
    ∧ (execute_code { st with dirs := (ensure_dir id st.dirs).2 } id
        [Stmt.fileWrite nm content] t).1.files =
        st.files ++ [((ensure_dir id st.dirs).1 ++ "/" ++ nm, content)] := by
  have hmem := ensure_dir_mem id st.dirs
  have hpath : (ensure_dir id st.dirs).1 = workspacePath id := rfl
  refine ⟨?_, ?_, hmem, ?_, ?_⟩
  · rw [hpath]
    unfold workspacePath osPathJoin
    rw [if_neg (by simp [habs])]
    rfl
  · rw [ensure_dir_already id _ hmem, hpath]
  · unfold execute_code
    simp only [hmem, if_true]
    rw [sessionEnv_getOrCreate]
    simp [execStmts, execStmt, initExecSt]
  · unfold execute_code
    simp only [hmem, if_true]
    rw [sessionEnv_getOrCreate]
    simp [execStmts, execStmt, initExecSt, hpath]

/-- Witness for C5 at a concrete input: a fresh session identifier `job7`
gets `/app/workspaces/job7`, idempotently, and a file written by its code
lands in that directory. -/
theorem c5_witness :
    isAbs "job7" = false
    ∧ ((ensure_dir "job7" demoState.dirs).1 = "/app/workspaces/" ++ "job7"
      ∧ ensure_dir "job7" (ensure_dir "job7" demoState.dirs).2 =
          ((ensure_dir "job7" demoState.dirs).1,
           (ensure_dir "job7" demoState.dirs).2)
      ∧ (ensure_dir "job7" demoState.dirs).2.contains
          (workspacePath "job7") = true
      ∧ (execute_code { demoState with
            dirs := (ensure_dir "job7" demoState.dirs).2 } "job7"
          [Stmt.fileWrite "out.csv" "a,b"] 60).2 = Except.ok ""
      ∧ (execute_code { demoState with
            dirs := (ensure_dir "job7" demoState.dirs).2 } "job7"
          [Stmt.fileWrite "out.csv" "a,b"] 60).1.files =
          demoState.files ++
            [((ensure_dir "job7" demoState.dirs).1 ++ "/" ++ "out.csv",
              "a,b")]) :=
  ⟨by decide, c5_workspace_ensure demoState "job7" "out.csv" "a,b" 60
    (by decide)⟩

/-- The server state after `execute_code` when the workspace directory
exists: the session entry is set to the mapping `exec` mutated, the file
system carries the writes, the stderr bytes went to wherever `sys.stderr`
pointed, and cwd / stdout target are restored — the same on every branch
of the `try`. -/
theorem execute_code_fst_of_dir (st : ServerState) (id : String)
    (code : List Stmt) (t : Nat)
    (hdir : st.dirs.contains (workspacePath id) = true) :
    (execute_code st id code t).1 =
      { st with
        sessions := assocSet (getOrCreate st.sessions id) id
          (execStmts false t (workspacePath id) code
            (initExecSt (sessionEnv st.sessions id) st.files)).1.env
        files := (execStmts false t (workspacePath id) code
          (initExecSt (sessionEnv st.sessions id) st.files)).1.files
        serverErr :=
          match st.sysStderr with
          | .server => st.serverErr ++ (execStmts false t (workspacePath id)
              code (initExecSt (sessionEnv st.sessions id) st.files)).1.err
          | .callBuffer => st.serverErr } := by
  unfold execute_code
  simp only [hdir, if_true]
  rw [sessionEnv_getOrCreate]
  cases hres : (execStmts false t (workspacePath id) code
    (initExecSt (sessionEnv st.sessions id) st.files)).2 with
  | none => simp only [hres]
  | some e =>
      by_cases hfa : e.fromAlarm <;> by_cases hca : e.catchable <;>
        simp only [hres, hfa, hca, if_true, if_false, Bool.false_eq_true]

/-- The server state after `execute_code` when the workspace directory is
missing: `os.chdir` raises before anything is redirected, so only the
get-or-create of the session entry has happened. -/
theorem execute_code_fst_of_nodir (st : ServerState) (id : String)
    (code : List Stmt) (t : Nat)
    (hdir : ¬ st.dirs.contains (workspacePath id) = true) :
    (execute_code st id code t).1 =
      { st with sessions := getOrCreate st.sessions id } := by
  unfold execute_code
  simp only [hdir, if_false, Bool.false_eq_true]

/-- Claim C8 counterexample: the executor redirects only `sys.stdout`
(`old_stdout = sys.stdout; sys.stdout = io.StringIO()`), never
`sys.stderr`, so a submission that writes to stderr writes onto the
server's own stderr stream — after the call the server's stderr has
changed, contradicting the claim that both streams go to per-call buffers
and the server's streams are unchanged. -/
theorem c8_counterexample :
    (execute_code demoState "A" [Stmt.printErr (Expr.const (Value.vInt 3))]
      60).1.serverErr = "3\n"
    ∧ demoState.serverErr = "" := ⟨rfl, rfl⟩

/-- Claim C8 amended: on every exit path the executor restores what it
changed — after the call the `sys.stdout` target, the `sys.stderr` target
and the working directory equal their values before it, and the submission's
stdout writes never reach the server's own stdout (they go to the per-call
buffer) — but stderr is never redirected: when `sys.stderr` points at the
server stream, the submission's stderr writes are appended to the server's
own stderr. -/
theorem c8_stream_and_cwd_discipline (st : ServerState) (id : String)
    (code : List Stmt) (t : Nat) :
    (execute_code st id code t).1.sysStdout = st.sysStdout
    ∧ (execute_code st id code t).1.sysStderr = st.sysStderr
    ∧ (execute_code st id code t).1.cwd = st.cwd
    ∧ (execute_code st id code t).1.serverOut = st.serverOut
    ∧ (st.dirs.contains (workspacePath id) = true →
        st.sysStderr = .server →
        (execute_code st id code t).1.serverErr =
          st.serverErr ++ (execStmts false t (workspacePath id) code
            (initExecSt (sessionEnv st.sessions id) st.files)).1.err) := by
  by_cases hdir : st.dirs.contains (workspacePath id) = true
  · rw [execute_code_fst_of_dir st id code t hdir]
    refine ⟨rfl, rfl, rfl, rfl, fun _ herr => ?_⟩
    simp only [herr]
  · rw [execute_code_fst_of_nodir st id code t hdir]
    exact ⟨rfl, rfl, rfl, rfl, fun hc _ => absurd hc hdir⟩

/-- Witness for C8 at a concrete input: stdout target, stderr target and
cwd are restored, the server's stdout is untouched, and the stderr bytes of
the submission land on the server's stderr. -/
theorem c8_witness :
    (execute_code demoState "A" [Stmt.printErr (Expr.const (Value.vInt 3))]
        60).1.sysStdout = demoState.sysStdout
    ∧ (execute_code demoState "A" [Stmt.printErr (Expr.const (Value.vInt 3))]
        60).1.sysStderr = demoState.sysStderr
    ∧ (execute_code demoState "A" [Stmt.printErr (Expr.const (Value.vInt 3))]
        60).1.cwd = demoState.cwd
    ∧ (execute_code demoState "A" [Stmt.printErr (Expr.const (Value.vInt 3))]
        60).1.serverOut = demoState.serverOut
    ∧ (demoState.dirs.contains (workspacePath "A") = true →
        demoState.sysStderr = .server →
        (execute_code demoState "A" [Stmt.printErr (Expr.const (Value.vInt 3))]
          60).1.serverErr =
          demoState.serverErr ++ (execStmts false 60 (workspacePath "A")
            [Stmt.printErr (Expr.const (Value.vInt 3))]
            (initExecSt (sessionEnv demoState.sessions "A")
              demoState.files)).1.err) :=
  c8_stream_and_cwd_discipline demoState "A"
    [Stmt.printErr (Expr.const (Value.vInt 3))] 60

/-- Claim C10: in the executor variant of `src/python/executor.py`, when
`exec` completes without raising, the result is the captured output, with
`str(v)` appended exactly when the extra `eval` of the last line against
the (post-`exec`) session state returns a non-`None` value `v`; when that
`eval` raises, the exception is swallowed and the captured output is
returned unchanged. -/
theorem c10_eval_last_line (sessions : List (String × Env)) (id : String)
    (code : List Stmt)
    (hok : (execStmts false 0 "" code
      (initExecSt (sessionEnv sessions id) [])).2 = none) :
    ((∀ e : PyExn,
        pyEvalLast code (execStmts false 0 "" code
          (initExecSt (sessionEnv sessions id) [])).1.env = .error e →
        (py_execute_code sessions id code).2 =
          .ok (execStmts false 0 "" code
            (initExecSt (sessionEnv sessions id) [])).1.out)
    ∧ (pyEvalLast code (execStmts false 0 "" code
          (initExecSt (sessionEnv sessions id) [])).1.env = .ok .vNone →
        (py_execute_code sessions id code).2 =
          .ok (execStmts false 0 "" code
            (initExecSt (sessionEnv sessions id) [])).1.out)
    ∧ (∀ v : Value,
        pyEvalLast code (execStmts false 0 "" code
          (initExecSt (sessionEnv sessions id) [])).1.env = .ok v →
        v ≠ .vNone →
        (py_execute_code sessions id code).2 =
          .ok ((execStmts false 0 "" code
            (initExecSt (sessionEnv sessions id) [])).1.out ++ v.pyStr))) := by
  refine ⟨?_, ?_, ?_⟩
  · intro e he
    unfold py_execute_code
    simp only [sessionEnv_getOrCreate, hok, he]
  · intro he
    unfold py_execute_code
    simp only [sessionEnv_getOrCreate, hok, he, if_pos]
  · intro v he hv
    unfold py_execute_code
    simp only [sessionEnv_getOrCreate, hok, he, if_neg hv]

/-- Witness for C10 at a concrete input: `x=41` then the bare expression
`x` — `exec` succeeds, the last line evaluates to `41`, and `"41"` is
appended to the (empty) captured output. -/
theorem c10_witness :
    (execStmts false 0 ""
        [Stmt.assign "x" (Expr.const (Value.vInt 41)),
         Stmt.exprStmt (Expr.var "x")]
        (initExecSt (sessionEnv [] "s") [])).2 = none
    ∧ pyEvalLast
        [Stmt.assign "x" (Expr.const (Value.vInt 41)),
         Stmt.exprStmt (Expr.var "x")]
        (execStmts false 0 ""
          [Stmt.assign "x" (Expr.const (Value.vInt 41)),
           Stmt.exprStmt (Expr.var "x")]
          (initExecSt (sessionEnv [] "s") [])).1.env = .ok (Value.vInt 41)
    ∧ (py_execute_code [] "s"
        [Stmt.assign "x" (Expr.const (Value.vInt 41)),
         Stmt.exprStmt (Expr.var "x")]).2 =
      .ok ((execStmts false 0 ""
        [Stmt.assign "x" (Expr.const (Value.vInt 41)),
         Stmt.exprStmt (Expr.var "x")]
        (initExecSt (sessionEnv [] "s") [])).1.out ++
          (Value.vInt 41).pyStr) :=
  ⟨by decide, by decide,
   (c10_eval_last_line [] "s"
      [Stmt.assign "x" (Expr.const (Value.vInt 41)),
       Stmt.exprStmt (Expr.var "x")] (by decide)).2.2 (Value.vInt 41)
     (by decide) (by decide)⟩

/-! Wire-protocol lemmas. -/

/-- String append acts as append on the character data. -/
theorem data_append (a b : String) : (a ++ b).data = a.data ++ b.data := rfl

/-- The empty string is a left identity of append. -/
theorem empty_append (s : String) : "" ++ s = s := rfl

/-- Concatenation of all chunks received on a connection. -/
def concatChunks : List String → String
  | [] => ""
  | c :: rest => c ++ concatChunks rest

theorem leadsWith_refl (s : List Char) : leadsWith s s = true := by
  induction s with
  | nil => rfl
  | cons a as ih => simp [leadsWith, ih]

theorem leadsWith_append (pat s y : List Char) (h : leadsWith pat s = true) :
    leadsWith pat (s ++ y) = true := by
  induction pat generalizing s with
  | nil => rfl
  | cons a as ih =>
      cases s with
      | nil => simp [leadsWith] at h
      | cons b bs =>
          simp only [leadsWith, Bool.and_eq_true] at h ⊢
          exact ⟨h.1, ih bs h.2⟩

theorem hasSub_nil_pat (y : List Char) : hasSub [] y = true := by
  cases y with
  | nil => rfl
  | cons c rest => simp [hasSub, leadsWith]

/-- An occurrence survives appending on the right. -/
theorem hasSub_append_left (pat x y : List Char) (h : hasSub pat x = true) :
    hasSub pat (x ++ y) = true := by
  induction x with
  | nil =>
      cases pat with
      | nil => simpa using hasSub_nil_pat y
      | cons a as => simp [hasSub, leadsWith] at h
  | cons c rest ih =>
      simp only [hasSub, Bool.or_eq_true] at h
      rcases h with h | h
      · simp only [List.cons_append, hasSub, Bool.or_eq_true]
        exact Or.inl (leadsWith_append _ _ _ h)
      · simp only [List.cons_append, hasSub, Bool.or_eq_true]
        exact Or.inr (ih h)

/-- The pattern occurs in anything ending with it. -/
theorem hasSub_trailing (pat a : List Char) : hasSub pat (a ++ pat) = true := by
  induction a with
  | nil =>
      cases pat with
      | nil => rfl
      | cons c rest =>
          simp only [List.nil_append, hasSub, Bool.or_eq_true]
          exact Or.inl (leadsWith_refl _)
  | cons c rest ih =>
      simp only [List.cons_append, hasSub, Bool.or_eq_true]
      exact Or.inr ih

/-- Claim C6 counterexample: a framed message with no delimiter gets the
protocol error `"Error: Invalid message format. Expected 'session_id|code'."`
sent back bare — the sentinel token does not occur in that response at all,
so not every response is followed by the sentinel. -/
theorem c6_counterexample :
    (handleConn 60 demoState ["garbage<|EOM|>"]).2 = [invalidFormatMsg]
    ∧ hasSub eomChars invalidFormatMsg.data = false := ⟨by decide, by decide⟩

/-- Claim C6 amended: the handler accumulates received bytes and produces
no response while the sentinel token has not been observed; every response
it does send is either a result followed by the sentinel token, or the
bare invalid-format protocol error, which is sent without the sentinel. -/
theorem c6_sentinel_framing :
    (∀ (t : Nat) (chunks : List String) (st : ServerState) (buf : String)
       (r : String), r ∈ (handleLoop t st buf chunks).2 →
       (∃ a, r = a ++ eomS) ∨ r = invalidFormatMsg)
    ∧ (∀ (t : Nat) (chunks : List String) (st : ServerState),
       hasSub eomChars (concatChunks chunks).data = false →
       (handleConn t st chunks).2 = []) := by
  constructor
  · intro t chunks
    induction chunks with
    | nil =>
        intro st buf r hr
        simp [handleLoop] at hr
    | cons d rest ih =>
        intro st buf r hr
        rw [handleLoop] at hr
        split at hr
        · split at hr
          · split at hr
            · simp only [List.mem_cons] at hr
              rcases hr with hr | hr
              · exact Or.inl ⟨_, hr⟩
              · exact ih _ _ r hr
            · simp at hr
          · simp only [List.mem_cons] at hr
            rcases hr with hr | hr
            · exact Or.inr hr
            · exact ih _ _ r hr
        · exact ih _ _ r hr
  · intro t chunks
    have step :
        ∀ (chunks : List String) (st : ServerState) (buf : String),
          hasSub eomChars (buf.data ++ (concatChunks chunks).data) = false →
          (handleLoop t st buf chunks).2 = [] := by
      intro chunks
      induction chunks with
      | nil => intro st buf _; rfl
      | cons d rest ih =>
          intro st buf h
          have hassoc :
              buf.data ++ (concatChunks (d :: rest)).data =
                (buf ++ d).data ++ (concatChunks rest).data := by
            simp [concatChunks, data_append, List.append_assoc]
          rw [hassoc] at h
          have hc : hasSub eomChars (buf ++ d).data = false := by
            cases hcb : hasSub eomChars (buf ++ d).data with
            | false => rfl
            | true =>
                rw [hasSub_append_left _ _ _ hcb] at h
                exact absurd h (by simp)
          rw [handleLoop]
          simp only [hc, Bool.false_eq_true, if_false]
          exact ih _ _ h
    intro st h
    exact step _ _ _ (by simpa [empty_append] using h)

/-- Witness for C6 at concrete inputs: the success response of a
well-formed run is of the sentinel-terminated form, and a connection whose
bytes never contain the sentinel produces no response. -/
theorem c6_witness :
    ("Success: Code executed with no output.<|EOM|>" ∈
      (handleLoop 60 demoState "" ["A|x=1<|EOM|>"]).2
    ∧ ((∃ a, "Success: Code executed with no output.<|EOM|>" = a ++ eomS)
      ∨ "Success: Code executed with no output.<|EOM|>" = invalidFormatMsg))
    ∧ (hasSub eomChars (concatChunks ["A|x=", "1"]).data = false
      ∧ (handleConn 60 demoState ["A|x=", "1"]).2 = []) :=
  ⟨⟨by decide,
    c6_sentinel_framing.1 60 ["A|x=1<|EOM|>"] demoState ""
      "Success: Code executed with no output.<|EOM|>" (by decide)⟩,
   ⟨by decide, c6_sentinel_framing.2 60 ["A|x=", "1"] demoState (by decide)⟩⟩

/-- Claim C7 counterexample: two well-formed framed requests arrive on one
connection — `A|x=1` then `B|y=2`.  Because `full_message` is never cleared
after processing, the second response is computed from the concatenation of
both requests with all sentinels stripped (`A|x=1B|y=2`), i.e. under
session `A` with code `x=1B|y=2`, which is a `SyntaxError`; session `B` is
never created.  Processing the second request from its own bytes alone
(third conjunct, same starting state) would instead succeed under session
`B` — so the second response is not computed from that request's own
`session_id` and `code`. -/
theorem c7_counterexample :
    (handleConn 60 demoState ["A|x=1<|EOM|>", "B|y=2<|EOM|>"]).2 =
      ["Success: Code executed with no output.<|EOM|>",
       "Error: SyntaxError: invalid syntax<|EOM|>"]
    ∧ assocGet (handleConn 60 demoState
        ["A|x=1<|EOM|>", "B|y=2<|EOM|>"]).1.sessions "B" = none
    ∧ (handleConn 60 (handleConn 60 demoState ["A|x=1<|EOM|>"]).1
        ["B|y=2<|EOM|>"]).2 =
      ["Success: Code executed with no output.<|EOM|>"] :=
  ⟨by decide, by decide, by decide⟩

/-- Claim C7 amended: the handler does keep the connection open after
responding and handles chunks strictly in arrival order — a clean first
request (no sentinel or delimiter oddities) is answered from its own
`session_id` and `code` — but the receive buffer is never cleared: the
loop continues on the remaining chunks with the first message still in the
buffer, so every later response is computed from all bytes received so far
(with all sentinels stripped) rather than from its own request alone. -/
theorem c7_ordered_but_buffer_retained (t : Nat) (st st2 : ServerState)
    (sid code r : String) (rest : List String)
    (hstrip : stripTok (sid ++ "|" ++ code ++ eomS) = sid ++ "|" ++ code)
    (hsplit : splitBar1 (sid ++ "|" ++ code) = [sid, code])
    (hexec : execute_code st sid (parseCode code) t = (st2, .ok r)) :
    handleConn t st ((sid ++ "|" ++ code ++ eomS) :: rest) =
      ((handleLoop t st2 (sid ++ "|" ++ code ++ eomS) rest).1,
       ((if pyStrip r = "" then emptySuccessMsg else r) ++ eomS) ::
         (handleLoop t st2 (sid ++ "|" ++ code ++ eomS) rest).2) := by
  have hdata : (sid ++ "|" ++ code ++ eomS).data =
      (sid ++ "|" ++ code).data ++ eomChars := by
    simp [data_append, List.append_assoc, eomS]
  unfold handleConn
  rw [handleLoop, empty_append]
  rw [if_pos (by rw [hdata]; exact hasSub_trailing _ _), hstrip, hsplit]
  simp only [hexec]

/-- Witness for C7 at a concrete input: the first request `A|x=1` on a
two-request connection is answered from its own bytes and the loop
continues carrying the dirty buffer. -/
theorem c7_witness :
    stripTok ("A" ++ "|" ++ "x=1" ++ eomS) = "A" ++ "|" ++ "x=1"
    ∧ splitBar1 ("A" ++ "|" ++ "x=1") = ["A", "x=1"]
    ∧ execute_code demoState "A" (parseCode "x=1") 60 =
        (⟨[("A", [("x", Value.vInt 1)])], "/app",
          ["/app/workspaces/A", "/app/workspaces/B", "/app/workspaces/s"],
          [], .server, .server, "", ""⟩, .ok "")
    ∧ handleConn 60 demoState
        (("A" ++ "|" ++ "x=1" ++ eomS) :: ["B|y=2<|EOM|>"]) =
      ((handleLoop 60
          ⟨[("A", [("x", Value.vInt 1)])], "/app",
           ["/app/workspaces/A", "/app/workspaces/B", "/app/workspaces/s"],
           [], .server, .server, "", ""⟩
          ("A" ++ "|" ++ "x=1" ++ eomS) ["B|y=2<|EOM|>"]).1,
       ((if pyStrip "" = "" then emptySuccessMsg else "") ++ eomS) ::
         (handleLoop 60
           ⟨[("A", [("x", Value.vInt 1)])], "/app",
            ["/app/workspaces/A", "/app/workspaces/B", "/app/workspaces/s"],
            [], .server, .server, "", ""⟩
           ("A" ++ "|" ++ "x=1" ++ eomS) ["B|y=2<|EOM|>"]).2) :=
  ⟨by decide, by decide, by decide,
   c7_ordered_but_buffer_retained 60 demoState _ "A" "x=1" "" ["B|y=2<|EOM|>"]
     (by decide) (by decide) (by decide)⟩

end StatsAgent
